import Mathlib

/-!
Verification development for the operator-norm estimation extension of a
transformer encoder-decoder (files `fairseq/models/transformer/transformer_base.py`
and `fairseq/modules/differentiable_embedding.py`).

The embedding works at two levels:
* a value level, where tensor entries are modelled as `FVal := Option ℚ`
  (`some q` is a finite float value, `none` a non-finite one, i.e. NaN or an
  infinity); square roots are modelled by `Rat.sqrt`, which agrees with the
  real square root on perfect squares, and every concrete evaluation in this
  file happens at a perfect square;
* a shape level, where a tensor is represented by its size list and each
  torch operation by its shape semantics, used for the estimator pipelines
  whose external encoder/decoder collaborators are known only through the
  shapes the spec assigns to them.
-/

namespace TransformersDD

/-- A floating-point scalar: `some q` is a finite value, `none` a non-finite
one (NaN or an infinity produced by a division by zero). -/
abbrev FVal : Type := Option ℚ

/-- Addition; any operation on a non-finite operand is non-finite. -/
def addF : FVal → FVal → FVal
  | some a, some b => some (a + b)
  | _, _ => none

/-- Subtraction on model floats. -/
def subF : FVal → FVal → FVal
  | some a, some b => some (a - b)
  | _, _ => none

/-- Multiplication on model floats. -/
def mulF : FVal → FVal → FVal
  | some a, some b => some (a * b)
  | _, _ => none

/-- Division on model floats: dividing by zero never yields a finite value
(`0/0` is NaN, `a/0` with `a ≠ 0` is an infinity), so the result is `none`. -/
def divF : FVal → FVal → FVal
  | some a, some b => if b = 0 then none else some (a / b)
  | _, _ => none

/-- Absolute value on model floats. -/
def absF : FVal → FVal
  | some a => some |a|
  | none => none

/-- Strict comparison, with the IEEE rule that any comparison against a
non-finite NaN-like value is false. -/
def ltF : FVal → FVal → Bool
  | some a, some b => decide (a < b)
  | _, _ => false

/-- Square root on model floats. A negative argument has no real square
root (torch produces NaN). On nonnegative rationals the model uses
`Rat.sqrt`, which coincides with the real square root exactly on perfect
squares; every concrete input evaluated in this development is a perfect
square, so the model is exact wherever it is used. -/
def sqrtF : FVal → FVal
  | some a => if a < 0 then none else some (Rat.sqrt a)
  | none => none

/-- Sum of a list of model floats (`some 0` is the neutral element). -/
def sumF (l : List FVal) : FVal := l.foldr addF (some 0)

/-- A tensor row: one vector of model floats along the last dimension. -/
abbrev Vec (n : ℕ) : Type := Fin n → FVal

/-- Inner product of two rows, `torch.matmul(u.T, u)` for a single row. -/
def dotF {n : ℕ} (u v : Vec n) : FVal :=
  sumF ((List.finRange n).map (fun i => mulF (u i) (v i)))

/-- The last-dimension L2 norm `torch.norm(v, p=2, dim=-1)`
(transformer_base.py lines 193, 199, 201). -/
def norm2F {n : ℕ} (v : Vec n) : FVal := sqrtF (dotF v v)

/-- The normalization step `v /= torch.norm(v, p=2, dim=-1).unsqueeze(-1)`
used at transformer_base.py lines 193, 199 and 201.  The source divides
directly: there is no test of the norm, no epsilon floor, and no error
path (the function is total into `Vec n`, not into an error monad). -/
def normalizeLast {n : ℕ} (v : Vec n) : Vec n :=
  fun i => divF (v i) (norm2F v)

/-- Modelled from the spec: the epsilon-floored normalization §7 and §9 ask
for (divide by `max(norm, eps)`), stated only to compare against the
source's unguarded `normalizeLast`; it appears nowhere in the source. -/
def normalizeEpsSpec {n : ℕ} (eps : ℚ) (v : Vec n) : Vec n :=
  fun i =>
    match norm2F v with
    | some q => divF (v i) (some (max q eps))
    | none => none

/-- The loop state of the iteration at transformer_base.py lines 197-205:
the current pulled-back direction `v`, the last computed singular-value
estimate `sigma` (`none` while no iteration has run, since `sigma` is
unbound before the loop), the number of loop iterations executed, and
whether the `break` at line 205 has fired. -/
structure LoopState (n : ℕ) where
  v : Vec n
  sigma : Option FVal
  iters : ℕ
  stopped : Bool

/-- Line 196: `sigma_prev = torch.zeros_like(src_tokens[:,:])`.  The loop
body (lines 197-205) never reassigns `sigma_prev`, so every stopping test
`torch.all(torch.abs(sigma - sigma_prev) < 1e-2)` at line 204 compares the
current estimate against this fixed zero value. -/
def sigma_prev : FVal := some 0

/-- One iteration of the loop at transformer_base.py lines 197-205:
`u = jvp(v)` then normalize, `v = vjp(u)` then normalize,
`sigma = torch.matmul(u.T, u)`, and `break` when
`torch.all(torch.abs(sigma - sigma_prev) < 1e-2)` — with `sigma_prev`
the never-updated zero tensor from line 196.  After a `break` the
remaining iterations do nothing. -/
def powerStep {n : ℕ} (jvp vjp : Vec n → Vec n) (s : LoopState n) : LoopState n :=
  if s.stopped then s
  else
    let u := normalizeLast (jvp s.v)
    let v := normalizeLast (vjp u)
    let sigma := dotF u u
    { v := v
      sigma := some sigma
      iters := s.iters + 1
      stopped := ltF (absF (subF sigma sigma_prev)) (some (1 / 100)) }

/-- The `for _ in range(max_steps)` loop of `power_method`
(transformer_base.py lines 196-207), started from an initial direction
`v0` with `sigma` still unbound. -/
def power_method_loop {n : ℕ} (jvp vjp : Vec n → Vec n) (v0 : Vec n)
    (max_steps : ℕ) : LoopState n :=
  (List.range max_steps).foldl (fun s _ => powerStep jvp vjp s)
    { v := v0, sigma := none, iters := 0, stopped := false }

/-- The `power_method` entry point (transformer_base.py lines 189-207).
Its body at line 194 reads the free name `weight`, which is defined
nowhere in the module (the encoder weight fetched at line 191 is bound to
`embedding_grad`, not `weight`), so every call raises
`NameError: name weight is not defined` while building the initial
direction, before the iteration loop at line 197 can start.  The argument
list mirrors the source signature. -/
def power_method {n : ℕ} (src_tokens : List (List ℕ))
    (jvp vjp : Vec n → Vec n) (max_steps : ℕ) : Except String FVal :=
  Except.error "NameError: name weight is not defined"

/-- A tensor shape, as `torch.Tensor.size()`: outermost dimension first. -/
abbrev Shape : Type := List ℕ

/-- Broadcasting of batch dimension lists, given innermost-first
(reversed): dimensions agree, or one of them is 1; missing leading
dimensions are filled in from the other operand. -/
def broadcastRev : List ℕ → List ℕ → Except String (List ℕ)
  | [], ys => Except.ok ys
  | x :: xs, [] => Except.ok (x :: xs)
  | x :: xs, y :: ys =>
    match broadcastRev xs ys with
    | Except.error e => Except.error e
    | Except.ok rest =>
      if x = y then Except.ok (x :: rest)
      else if x = 1 then Except.ok (y :: rest)
      else if y = 1 then Except.ok (x :: rest)
      else Except.error "broadcast: incompatible batch dimensions"

/-- Shape semantics of `torch.matmul`: 1-D operands are promoted to a row
(resp. column) matrix whose extra dimension is squeezed from the result;
for higher-rank operands the last two dimensions are the matrix
dimensions, whose inner sizes must agree, and the remaining leading
dimensions are broadcast. -/
def matmulShape (a b : Shape) : Except String Shape :=
  match a.reverse, b.reverse with
  | [], _ => Except.error "matmul: tensors must be at least 1-dimensional"
  | _, [] => Except.error "matmul: tensors must be at least 1-dimensional"
  | [ak], [bk] =>
    if ak = bk then Except.ok []
    else Except.error "matmul: inner dimension mismatch"
  | [ak], bc :: br :: bbatch =>
    if ak = br then Except.ok ((bc :: bbatch).reverse)
    else Except.error "matmul: inner dimension mismatch"
  | ac :: _ar :: abatch, [bk] =>
    if ac = bk then Except.ok ((_ar :: abatch).reverse)
    else Except.error "matmul: inner dimension mismatch"
  | ac :: ar :: abatch, bc :: br :: bbatch =>
    if ac = br then
      match broadcastRev abatch bbatch with
      | Except.error e => Except.error e
      | Except.ok batchRev => Except.ok ((bc :: ar :: batchRev).reverse)
    else Except.error "matmul: inner dimension mismatch"

/-- Shape semantics of `Tensor.T`: all dimensions reversed. -/
def transposeT (s : Shape) : Shape := s.reverse

/-- Shape semantics of `Tensor.reshape(-1, last)`. -/
def reshapeNeg1 (s : Shape) (last : ℕ) : Except String Shape :=
  if last = 0 then Except.error "reshape: zero target dimension"
  else if s.prod % last = 0 then Except.ok [s.prod / last, last]
  else Except.error "reshape: incompatible number of elements"

/-- Shape semantics of `Tensor.diagonal(offset=0, dim1=-2, dim2=-1)`: the
last two dimensions are replaced by a single trailing diagonal dimension. -/
def diagonalShape (s : Shape) : Except String Shape :=
  match s.reverse with
  | n :: m :: rest => Except.ok (rest.reverse ++ [min m n])
  | _ => Except.error "diagonal: tensor must have at least 2 dimensions"

/-- Shape semantics of `Tensor.sum(dim=-1)`: the last dimension is removed
(`torch.sqrt` then preserves the shape). -/
def sumLastShape (s : Shape) : Shape := s.dropLast

/-- Shape of `functorch.jacrev(f)(x)`: the output shape of `f` followed by
the shape of `x`. -/
def jacrevShape (outS inS : Shape) : Shape := outS ++ inS

/-- Shape-level embedding of `operator_norm_implicit`
(transformer_base.py lines 213-289), parameterized by the batch size, the
source and target sequence lengths, the vocabulary size and the embedding
dimension.  Shapes of the external encoder/decoder collaborators are
modelled from the spec: `encoder.forward_embedding(src_tokens)` (line 245)
returns `x` of shape `[batch, src_len, embed_dim]`, the decoder features
have shape `[batch, tgt_len, embed_dim]` so that after
`reshape(-1, decoder_adj.shape[-1])` (line 249) `model_forward` returns a
`[batch*tgt_len, embed_dim]` matrix, `jvp` (line 258) returns an
output-shaped tangent, and `vjp` (line 270) returns an `x`-shaped
cotangent after checking that its argument has the output's shape.
`encoder.embed_tokens.weight` and `decoder.embed_tokens.weight` have
shape `[vocab, embed_dim]`. -/
def operator_norm_implicit (batch srcLen tgtLen vocab embedDim : ℕ) :
    Except String Shape := do
  let xShape : Shape := [batch, srcLen, embedDim]
  let wShape : Shape := [vocab, embedDim]
  -- line 247: decoder_adj = decoder weight transposed times decoder weight
  let decoder_adj ← matmulShape (transposeT wShape) wShape
  -- line 249: model_forward output, reshaped to [-1, decoder_adj.shape[-1]]
  let mfOut ← reshapeNeg1 [batch, tgtLen, embedDim] (decoder_adj.getLastD 0)
  -- line 258: jv = jvp(model_forward, (x,), (v,))[1] has the output's shape
  let jvpOut := mfOut
  -- line 264: embed_jv = torch.matmul(decoder_adj, jv.T).T
  let embedJv ← matmulShape decoder_adj (transposeT jvpOut)
  let cotangent := transposeT embedJv
  if cotangent = mfOut then
    -- line 270: vj = vjp(model_forward, x)[1](jv)[0] has the shape of x
    let vjpOut := xShape
    -- lines 279-280: inner_product = jacrev(vjp_fn)(dummy)
    let inner := jacrevShape vjpOut xShape
    -- line 282: inner = torch.matmul(encoder_w.T, inner_product.T).T
    let innerProj ← matmulShape (transposeT wShape) (transposeT inner)
    let innerT := transposeT innerProj
    -- line 283: outer = torch.matmul(encoder_w.T, inner_product)
    let outer ← matmulShape (transposeT wShape) innerT
    -- line 285: sqrt of the summed diagonal; sqrt preserves the shape
    let diag ← diagonalShape outer
    Except.ok (sumLastShape diag)
  else
    Except.error "vjp: cotangent shape mismatch"

/-- The probe direction of `operator_norm_implicit`, line 277:
`dummy = torch.ones_like(x)` — a deterministic all-ones tensor, not a
random draw. -/
def dummyProbe (batch srcLen embedDim : ℕ) :
    Fin batch → Fin srcLen → Fin embedDim → ℚ :=
  fun _ _ _ => 1

/-- `operator_norm_implicit` with the state of the global random number
generator made explicit (modelled as a natural number seed).  The body
consumes no randomness: its probe is the deterministic `dummyProbe`
(line 277) and the `power_method` call at line 287 is commented out, so
the RNG state is never read. -/
def operator_norm_implicit_seeded (rng : ℕ)
    (batch srcLen tgtLen vocab embedDim : ℕ) : Except String Shape :=
  operator_norm_implicit batch srcLen tgtLen vocab embedDim

/-- Row-major flattening of a `[b, t]` index pair, as `input.view(-1)`
(differentiable_embedding.py line 26). -/
def flatIdx {b t : ℕ} (i : Fin b) (j : Fin t) : Fin (b * t) :=
  ⟨(i : ℕ) * t + (j : ℕ), by
    have h1 : (i : ℕ) * t + (j : ℕ) < ((i : ℕ) + 1) * t := by
      rw [Nat.succ_mul]
      exact Nat.add_lt_add_left j.isLt _
    exact Nat.lt_of_lt_of_le h1 (Nat.mul_le_mul_right t (Nat.succ_le_of_lt i.isLt))⟩

/-- The batch coordinate recovered from a flattened `[b*t]` index. -/
def unflatB {b t : ℕ} (f : Fin (b * t)) : Fin b :=
  ⟨(f : ℕ) / t, Nat.div_lt_of_lt_mul (by
    rw [Nat.mul_comm t b]
    exact f.isLt)⟩

/-- The sequence coordinate recovered from a flattened `[b*t]` index. -/
def unflatT {b t : ℕ} (f : Fin (b * t)) : Fin t :=
  ⟨(f : ℕ) % t, by
    have hpos : 0 < b * t := Nat.lt_of_le_of_lt (Nat.zero_le _) f.isLt
    have ht : 0 < t := by
      rcases Nat.eq_zero_or_pos t with h | h
      · rw [h, Nat.mul_zero] at hpos
        exact absurd hpos (by omega)
      · exact h
    exact Nat.mod_lt _ ht⟩

/-- The one-hot matrix
`nn.functional.one_hot(input.view(-1), num_classes=V).type(weight.dtype)`
(differentiable_embedding.py line 26): row `f` is the indicator of the
token id at flattened position `f`. -/
def oneHotM {b t V : ℕ} (tokens : Fin b → Fin t → Fin V) :
    Fin (b * t) → Fin V → ℚ :=
  fun f v => if tokens (unflatB f) (unflatT f) = v then 1 else 0

/-- The tensor returned by `DifferentiableEmbedding.forward`
(differentiable_embedding.py line 32):
`torch.matmul(self.weight.T, self.one_hot.T).T.view(bsz, tsz, dim)`,
i.e. entry `[i, j, k]` of `(one_hot @ W)` reshaped to `[b, t, d]`. -/
def forwardTensor {b t V d : ℕ} (W : Fin V → Fin d → ℚ)
    (tokens : Fin b → Fin t → Fin V) : Fin b → Fin t → Fin d → ℚ :=
  fun i j k => ∑ v : Fin V, oneHotM tokens (flatIdx i j) v * W v k

/-- The plain embedding lookup: position `[i, j]` maps to row
`tokens[i][j]` of the weight matrix. -/
def embLookup {b t V d : ℕ} (W : Fin V → Fin d → ℚ)
    (tokens : Fin b → Fin t → Fin V) : Fin b → Fin t → Fin d → ℚ :=
  fun i j k => W (tokens i j) k

/-- The mutable data attached to the module's `one_hot` attribute: the
one-hot values, the `requires_grad` flag (set together with
`retain_grad()` at lines 29-30 when retention is enabled), and the
`grad` slot, which is `None` on a freshly built tensor and is only ever
filled by an (external) backward pass. -/
structure OneHotRec (b t V : ℕ) where
  val : Fin (b * t) → Fin V → ℚ
  requires_grad : Bool
  grad : Option (Fin (b * t) → Fin V → ℚ)

/-- The module state of `DifferentiableEmbedding`: the class attributes
`retain_input_grad : bool = False` and `one_hot : torch.Tensor = None`
(differentiable_embedding.py lines 7-8). -/
structure DEState (b t V : ℕ) where
  retain_input_grad : Bool
  one_hot : Option (OneHotRec b t V)

namespace DifferentiableEmbedding

/-- The state of a freshly constructed module: `retain_input_grad` is
`False` and `one_hot` is `None` (lines 7-8). -/
def init (b t V : ℕ) : DEState b t V :=
  { retain_input_grad := false, one_hot := none }

/-- A Python return value of the `forward` method: either a single tensor
object or a 2-tuple of a tensor and an intermediate. -/
inductive PyRet (E I : Type) where
  | single (e : E)
  | tuple (e : E) (i : I)

/-- `DifferentiableEmbedding.forward` (differentiable_embedding.py lines
23-32): recompute `self.one_hot` from the input tokens (line 26), mark it
for gradient retention exactly when `self.retain_input_grad` is set
(lines 28-30, with the fresh tensor's `grad` slot empty), and return the
single tensor `torch.matmul(self.weight.T, self.one_hot.T).T.view(bsz,
tsz, dim)` (line 32).  The method's Python return value is one object,
rendered as `PyRet.single`; the one-hot intermediate lives only in the
updated module state. -/
def forward {b t V d : ℕ} (s : DEState b t V) (W : Fin V → Fin d → ℚ)
    (tokens : Fin b → Fin t → Fin V) :
    PyRet (Fin b → Fin t → Fin d → ℚ) (Fin (b * t) → Fin V → ℚ) × DEState b t V :=
  (PyRet.single (forwardTensor W tokens),
   { retain_input_grad := s.retain_input_grad,
     one_hot := some
       { val := oneHotM tokens
         requires_grad := s.retain_input_grad
         grad := none } })

/-- `DifferentiableEmbedding.input_grad` (lines 10-14): if `self.one_hot`
is not `None`, return its `grad` slot (itself possibly `None`), else
return `None`.  The `None` test in the source is exactly the guard that
makes the call safe before any forward pass. -/
def input_grad {b t V : ℕ} (s : DEState b t V) :
    Option (Fin (b * t) → Fin V → ℚ) :=
  match s.one_hot with
  | some oh => oh.grad
  | none => none

/-- `DifferentiableEmbedding.retain_input_grad_` (lines 20-21). -/
def retain_input_grad_ {b t V : ℕ} (s : DEState b t V) (retain : Bool) :
    DEState b t V :=
  { retain_input_grad := retain, one_hot := s.one_hot }

/-- `DifferentiableEmbedding.unset_input_grad_` (lines 16-18): clear the
retained gradient when a one-hot tensor exists. -/
def unset_input_grad_ {b t V : ℕ} (s : DEState b t V) : DEState b t V :=
  match s.one_hot with
  | some oh =>
    { retain_input_grad := s.retain_input_grad,
      one_hot := some { val := oh.val, requires_grad := oh.requires_grad, grad := none } }
  | none => s

end DifferentiableEmbedding

/-- The `Embedding` factory (transformer_base.py lines 440-444): build an
`nn.Embedding(num_embeddings, embedding_dim, padding_idx)`, initialize the
weight from a normal distribution — modelled by the sampled values
`init` — and then overwrite row `padding_idx` with zeros via
`nn.init.constant_(m.weight[padding_idx], 0)`. -/
def Embedding (num_embeddings embedding_dim : ℕ) (padding_idx : ℕ)
    (init : Fin num_embeddings → Fin embedding_dim → ℚ) :
    Fin num_embeddings → Fin embedding_dim → ℚ :=
  fun i j => if (i : ℕ) = padding_idx then 0 else init i j

/-- The per-side (encoder or decoder) configuration fields read by
`build_model`. -/
structure EncDecCfg where
  embed_dim : ℕ
  embed_path : Option String
  layers_to_keep : Option String
  layers : ℕ

/-- The configuration fields of `TransformerConfig` read by `build_model`
(transformer_base.py lines 59-117).  The decoder input/output dimensions
are kept as integers; the `int(...)` casts at lines 65-66 are the
identity on them. -/
structure Cfg where
  encoder : EncDecCfg
  decoder : EncDecCfg
  decoder_input_dim : ℤ
  decoder_output_dim : ℤ
  share_all_embeddings : Bool
  merge_src_tgt_embed : Bool
  offload_activations : Bool
  checkpoint_activations : Bool
  no_cross_attention : Bool
  share_decoder_input_output_embed : Bool

/-- The task fields read by `build_model`: the source and target
dictionaries, modelled as opaque identifiers compared the way Python
compares the dictionary objects. -/
structure Task where
  source_dictionary : ℕ
  target_dictionary : ℕ

/-- Python truthiness of an optional string: `None` and the empty string
are falsy. -/
def truthyStr : Option String → Bool
  | none => false
  | some s => !(s = "")

/-- The configuration normalization at transformer_base.py lines 63-72:
re-cast the decoder input/output dimensions to int and, when
`layers_to_keep` is truthy, recompute the layer count as the number of
comma-separated entries. -/
def normalizeCfg (cfg : Cfg) : Cfg :=
  let enc := cfg.encoder
  let dec := cfg.decoder
  { cfg with
    decoder_input_dim := cfg.decoder_input_dim
    decoder_output_dim := cfg.decoder_output_dim
    encoder :=
      { enc with
        layers :=
          match enc.layers_to_keep with
          | some s => if s = "" then enc.layers else (s.splitOn ",").length
          | none => enc.layers }
    decoder :=
      { dec with
        layers :=
          match dec.layers_to_keep with
          | some s => if s = "" then dec.layers else (s.splitOn ",").length
          | none => dec.layers } }

/-- An embedding table as produced by `build_embedding`
(transformer_base.py lines 119-129), recording which dictionary, embedding
dimension and optional preloaded-embedding path it was built from; the
actual table contents are external (`utils.parse_embedding` and the
encoder stack are collaborators outside this file's source). -/
inductive BuiltEmbedding where
  | fromDict (dict : ℕ) (embed_dim : ℕ) (path : Option String)

/-- The value `build_model` produces on success: the final configuration
together with the two embedding tables and whether they are the same
shared object. -/
structure BuiltModel where
  cfg : Cfg
  encoder_embed : BuiltEmbedding
  decoder_embed : BuiltEmbedding
  shared_embed : Bool

/-- The embedding-construction part of `build_model` (transformer_base.py
lines 74-112): under `share_all_embeddings` validate the configuration
and raise (return an error) on a joined-dictionary violation, an
encoder/decoder embedding-dimension mismatch, or a truthy decoder
embedding path different from the encoder one — each before anything is
built; under `merge_src_tgt_embed` share one table over the merged
dictionary (the in-place `src_dict.update(tgt_dict)` merge is external
and keeps the source-dictionary object); otherwise build two separate
tables.  Returns the updated configuration and the two tables. -/
def buildEmbeddings (cfg : Cfg) (task : Task) :
    Except String (Cfg × BuiltEmbedding × BuiltEmbedding × Bool) :=
  if cfg.share_all_embeddings then
    if task.source_dictionary ≠ task.target_dictionary then
      Except.error "--share-all-embeddings requires a joined dictionary"
    else if cfg.encoder.embed_dim ≠ cfg.decoder.embed_dim then
      Except.error
        "--share-all-embeddings requires --encoder-embed-dim to match --decoder-embed-dim"
    else if truthyStr cfg.decoder.embed_path
        && decide (cfg.decoder.embed_path ≠ cfg.encoder.embed_path) then
      Except.error "--share-all-embeddings not compatible with --decoder-embed-path"
    else
      let emb := BuiltEmbedding.fromDict task.source_dictionary
        cfg.encoder.embed_dim cfg.encoder.embed_path
      Except.ok ({ cfg with share_decoder_input_output_embed := true },
        emb, emb, true)
  else if cfg.merge_src_tgt_embed then
    let emb := BuiltEmbedding.fromDict task.source_dictionary
      cfg.encoder.embed_dim none
    Except.ok ({ cfg with share_decoder_input_output_embed := true },
      emb, emb, true)
  else
    Except.ok (cfg,
      BuiltEmbedding.fromDict task.source_dictionary
        cfg.encoder.embed_dim cfg.encoder.embed_path,
      BuiltEmbedding.fromDict task.target_dictionary
        cfg.decoder.embed_dim cfg.decoder.embed_path,
      false)

/-- `build_model` (transformer_base.py lines 59-117): normalize the
configuration, build (or fail to build) the embedding tables, apply the
`offload_activations` implication of line 113-114, and assemble the
model.  A configuration rejected by the `share_all_embeddings` checks
yields `Except.error` — the `ValueError` raised at lines 78, 80-82 or
86-88 — and no `BuiltModel` is constructed. -/
def build_model (cfg0 : Cfg) (task : Task) : Except String BuiltModel :=
  let cfg := normalizeCfg cfg0
  match buildEmbeddings cfg task with
  | Except.error e => Except.error e
  | Except.ok (cfg1, enc, dec, shared) =>
    let cfg2 :=
      if cfg1.offload_activations then { cfg1 with checkpoint_activations := true }
      else cfg1
    Except.ok ⟨cfg2, enc, dec, shared⟩

/-- The parameter/buffer snapshot extracted by
`make_functional_with_buffers(embedded_model)` at transformer_base.py
line 244 (and identically at lines 323 and 399): an ordered collection of
parameter tensors and buffer tensors, kept abstract. -/
structure Snapshot (P B : Type) where
  params : P
  buffers : B

/-- Modelled from the spec: `functorch.make_functional_with_buffers` is an
external collaborator; per §4.2 it yields a pure function
`model_fn(params, buffers, *inputs)` over the snapshot, so the functional
model is an arbitrary Lean function of the snapshot, the fixed inputs
(src_tokens, src_lengths, prev_output_tokens, embedding) and the
perturbable embedding `x`. -/
structure FunctionalModel (P B F X O : Type) where
  fn : P → B → F → X → O

/-- The closure `model_forward` built at transformer_base.py lines 248-249
(and identically at lines 327-328 and 403-404): apply `model_fn` to the
captured `params`, `buffers`, the fixed inputs and the open argument `x`,
then reshape the first component of the result (the reshape is a pure
post-composition and is folded into the output type).  The closure is
rendered state-passing so that any effect on the captured snapshot would
be observable: the source body only reads `params` and `buffers` and
assigns neither, so the snapshot is returned as it was received. -/
def model_forward {P B F X O : Type} (m : FunctionalModel P B F X O)
    (fixed : F) (s : Snapshot P B) (x : X) : O × Snapshot P B :=
  (m.fn s.params s.buffers fixed x, s)

/-- Any number of `model_forward` calls in sequence, with arbitrary
arguments, threading the snapshot. -/
def run_model_forward {P B F X O : Type} (m : FunctionalModel P B F X O)
    (fixed : F) (xs : List X) (s : Snapshot P B) : Snapshot P B :=
  xs.foldl (fun st x => (model_forward m fixed st x).2) s

/-- Whether a Python return value is a 2-tuple. -/
def DifferentiableEmbedding.PyRet.isTuple {E I : Type} :
    DifferentiableEmbedding.PyRet E I → Bool
  | DifferentiableEmbedding.PyRet.single _ => false
  | DifferentiableEmbedding.PyRet.tuple _ _ => true

/-- A concrete unit-norm starting direction for exercising the
`power_method` loop: the first standard basis row of width 2. -/
def probeDir : Vec 2 := fun i => if i = 0 then some 1 else some 0

/-- A concrete 3-by-2 embedding weight matrix. -/
def wSmall : Fin 3 → Fin 2 → ℚ := fun v k => ((v : ℕ) : ℚ) + ((k : ℕ) : ℚ)

/-- A concrete 1-by-2 token-id matrix over a 3-word vocabulary. -/
def tokensSmall : Fin 1 → Fin 2 → Fin 3 := fun _ _ => 0

/-- A concrete configuration with `share_all_embeddings` set and
mismatched encoder/decoder embedding dimensions (512 vs 256). -/
def cfgShareBad : Cfg :=
  { encoder := { embed_dim := 512, embed_path := none, layers_to_keep := none, layers := 6 }
    decoder := { embed_dim := 256, embed_path := none, layers_to_keep := none, layers := 6 }
    decoder_input_dim := 256
    decoder_output_dim := 256
    share_all_embeddings := true
    merge_src_tgt_embed := false
    offload_activations := false
    checkpoint_activations := false
    no_cross_attention := false
    share_decoder_input_output_embed := false }

/-- A concrete task whose source and target dictionaries are the same
joined dictionary. -/
def taskJoined : Task := { source_dictionary := 0, target_dictionary := 0 }

/-!
## Theorems
-/

/-- Helper: `Rat.sqrt 1 = 1` (1 is a perfect square). -/
theorem sqrt_one_q : Rat.sqrt 1 = 1 := by
  have h := Rat.sqrt_eq 1
  rw [mul_one, abs_one] at h
  exact h

/-- Helper: `Rat.sqrt 0 = 0` (0 is a perfect square). -/
theorem sqrt_zero_q : Rat.sqrt 0 = 0 := by
  have h := Rat.sqrt_eq 0
  rw [mul_zero, abs_zero] at h
  exact h

/-- Helper: the self inner product of `probeDir` is 1. -/
theorem dotF_probe : dotF probeDir probeDir = some 1 := by
  simp [dotF, sumF, probeDir, List.finRange_succ, mulF, addF]

/-- Helper: `probeDir` has L2 norm 1. -/
theorem norm2F_probe : norm2F probeDir = some 1 := by
  rw [norm2F, dotF_probe]
  simp [sqrtF, sqrt_one_q]

/-- Helper: normalizing the unit-norm `probeDir` leaves it unchanged. -/
theorem normalize_probe : normalizeLast probeDir = probeDir := by
  funext i
  rw [normalizeLast, norm2F_probe]
  by_cases h : i = 0 <;> simp [probeDir, h, divF]

/-- Helper: with identity push and pull maps started at `probeDir`, one
non-stopped loop iteration keeps the direction, sets the estimate to 1,
and does not fire the stopping test, since `|1 - sigma_prev| = |1 - 0|`
is not below `1e-2`. -/
theorem powerStep_probe (sig : Option FVal) (k : ℕ) :
    powerStep id id { v := probeDir, sigma := sig, iters := k, stopped := false }
      = { v := probeDir, sigma := some (some 1), iters := k + 1, stopped := false } := by
  rw [powerStep]
  simp only [if_neg (by simp : ¬(false = true)), id_eq, normalize_probe, dotF_probe]
  simp [ltF, absF, subF, sigma_prev]
  norm_num

/-- Helper: with identity push and pull maps started at `probeDir`, the
loop runs all of its iterations — the estimate is exactly 1 at every
iteration, so it never changes between consecutive iterations, yet the
stopping test (which compares against the never-updated zero
`sigma_prev`) never fires. -/
theorem power_method_loop_probe (k : ℕ) :
    power_method_loop id id probeDir (k + 1)
      = { v := probeDir, sigma := some (some 1), iters := k + 1, stopped := false } := by
  induction k with
  | zero =>
    rw [power_method_loop]
    rw [show List.range 1 = [0] from rfl]
    simp only [List.foldl_cons, List.foldl_nil]
    exact powerStep_probe none 0
  | succ k ih =>
    rw [power_method_loop, List.range_succ, List.foldl_append]
    rw [power_method_loop] at ih
    simp only [List.foldl_cons, List.foldl_nil]
    rw [ih]
    exact powerStep_probe (some (some 1)) (k + 1)

/-- C2: against the claim, the stopping test of the `power_method` loop
does not compare consecutive estimates: `sigma_prev` stays the fixed zero
tensor of line 196.  Concretely, with identity push/pull maps and the
unit direction `probeDir`, the estimate equals 1 at iteration 1 and at
iteration 2 — a change of 0, far below `1e-2`, so the claimed test would
stop at iteration 2 — yet the loop never stops and runs all 60 default
iterations, because `|sigma - sigma_prev| = |1 - 0| = 1` is never below
`1e-2`. -/
theorem power_method_stop_test_ignores_previous_estimate :
    (power_method_loop id id probeDir 60).iters = 60
    ∧ (power_method_loop id id probeDir 60).stopped = false
    ∧ (power_method_loop id id probeDir 2).sigma = some (some 1)
    ∧ (power_method_loop id id probeDir 1).sigma = some (some 1)
    ∧ ltF (absF (subF (some 1) (some 1))) (some (1 / 100)) = true := by
  refine ⟨?_, ?_, ?_, ?_, ?_⟩
  · rw [power_method_loop_probe 59]
  · rw [power_method_loop_probe 59]
  · rw [power_method_loop_probe 1]
  · rw [power_method_loop_probe 0]
  · simp [ltF, absF, subF]

/-- C3 (amended): the normalization steps of `power_method` perform the
division by the last-dimension L2 norm unguarded — whenever that norm is
exactly zero, every entry of the result is a non-finite value (NaN),
produced silently: `normalizeLast` has no error outcome and applies no
epsilon floor. -/
theorem normalize_zero_norm_silent_nan {n : ℕ} (v : Vec n)
    (h : norm2F v = some 0) (i : Fin n) : normalizeLast v i = none := by
  rw [normalizeLast, h]
  cases hv : v i <;> simp [divF]

/-- Helper: the all-zero row of width 2 has L2 norm exactly zero. -/
theorem norm2F_zero2 : norm2F (fun _ : Fin 2 => (some 0 : FVal)) = some 0 := by
  simp [norm2F, dotF, sumF, List.finRange_succ, mulF, addF, sqrtF, sqrt_zero_q]

/-- Witness for C3 at the concrete all-zero row of width 2. -/
theorem normalize_zero_norm_silent_nan_witness :
    norm2F (fun _ : Fin 2 => (some 0 : FVal)) = some 0
    ∧ normalizeLast (fun _ : Fin 2 => (some 0 : FVal)) 0 = none :=
  ⟨norm2F_zero2, normalize_zero_norm_silent_nan _ norm2F_zero2 0⟩

/-- C3 counterexample: on the all-zero row of width 2 the source's
normalization step produces a non-finite (NaN) entry — it performs the
division by the zero norm instead of raising — whereas an epsilon-floored
normalization (what the claim asserts the implementation does) would
return the finite value 0 there. -/
theorem normalize_zero_norm_counterexample :
    normalizeLast (fun _ : Fin 2 => (some 0 : FVal)) 0 = none
    ∧ normalizeEpsSpec (1 / 1000000) (fun _ : Fin 2 => (some 0 : FVal)) 0 = some 0 := by
  constructor
  · rw [normalizeLast, norm2F_zero2]
    simp [divF]
  · rw [normalizeEpsSpec, norm2F_zero2]
    simp [divF]

/-- C1: at the spec's concrete scenario — batch 2, source length 5
(lengths 3 and 5 padded to 5), vocabulary 10, embedding dimension 4 (and
target length 5) — `operator_norm_implicit` does not return a `[batch]`
tensor of square-rooted traces: the projection
`torch.matmul(encoder_w.T, inner_product.T)` at line 282 multiplies a
`[4, 10]` matrix against the trailing `[5, 2]` matrix dimensions of the
reversed 6-D `jacrev` result, whose inner dimensions (10 vs 5) do not
match, so the call raises a shape error. -/
theorem operator_norm_implicit_scenario_shape_error :
    operator_norm_implicit 2 5 5 10 4
      = Except.error "matmul: inner dimension mismatch" := rfl

/-- C9: `power_method` never reaches its iteration loop: every call — for
example on a batch of two token sequences — raises a NameError for the
undefined free name `weight` at line 194, instead of returning a
converged or max-iteration estimate. -/
theorem power_method_always_raises_name_error :
    power_method (n := 2) [[1, 2, 3], [4, 5, 6]] id id 60
      = Except.error "NameError: name weight is not defined" := rfl

/-- C5: `operator_norm_implicit` reads no randomness — its probe is the
deterministic all-ones `dummyProbe` — so its result is independent of the
random-generator state, and two runs on the same inputs and snapshot
return the same value. -/
theorem operator_norm_implicit_seed_independent
    (rng1 rng2 batch srcLen tgtLen vocab embedDim : ℕ) :
    operator_norm_implicit_seeded rng1 batch srcLen tgtLen vocab embedDim
      = operator_norm_implicit_seeded rng2 batch srcLen tgtLen vocab embedDim := rfl

/-- C4: any number of `model_forward` calls, with arbitrary arguments,
leave the extracted parameter/buffer snapshot exactly as it was: the
closure only reads `params` and `buffers` and passes them to the pure
functional model. -/
theorem model_forward_preserves_snapshot {P B F X O : Type}
    (m : FunctionalModel P B F X O) (fixed : F) (xs : List X)
    (s : Snapshot P B) : run_model_forward m fixed xs s = s := by
  induction xs generalizing s with
  | nil => rfl
  | cons x xs ih => exact ih s

/-- Helper: the batch coordinate of a flattened index is recovered. -/
theorem unflatB_flatIdx {b t : ℕ} (i : Fin b) (j : Fin t) :
    unflatB (flatIdx i j) = i := by
  apply Fin.ext
  show ((i : ℕ) * t + (j : ℕ)) / t = (i : ℕ)
  have ht : 0 < t := Fin.pos j
  rw [Nat.mul_comm, Nat.mul_add_div ht, Nat.div_eq_of_lt j.isLt, Nat.add_zero]

/-- Helper: the sequence coordinate of a flattened index is recovered. -/
theorem unflatT_flatIdx {b t : ℕ} (i : Fin b) (j : Fin t) :
    unflatT (flatIdx i j) = j := by
  apply Fin.ext
  show ((i : ℕ) * t + (j : ℕ)) % t = (j : ℕ)
  rw [Nat.mul_comm, Nat.mul_add_mod]
  exact Nat.mod_eq_of_lt j.isLt

/-- Helper: the matmul of the one-hot rows against the weight matrix is
exactly the plain embedding lookup. -/
theorem forwardTensor_eq_embLookup {b t V d : ℕ} (W : Fin V → Fin d → ℚ)
    (tokens : Fin b → Fin t → Fin V) :
    forwardTensor W tokens = embLookup W tokens := by
  funext i j k
  show (∑ v : Fin V, oneHotM tokens (flatIdx i j) v * W v k) = W (tokens i j) k
  simp [oneHotM, unflatB_flatIdx, unflatT_flatIdx, ite_mul]

/-- C6 (amended): `DifferentiableEmbedding.forward` returns the standard
embedding lookup tensor as a single Python object — not a pair — and
stores the freshly recomputed differentiable one-hot intermediate on the
module as `self.one_hot` (with an empty gradient slot, marked for
retention exactly when `retain_input_grad` is set). -/
theorem forward_returns_lookup_stores_one_hot (b t V d : ℕ)
    (W : Fin V → Fin d → ℚ) (tokens : Fin b → Fin t → Fin V)
    (s : DEState b t V) :
    (DifferentiableEmbedding.forward s W tokens).1
        = DifferentiableEmbedding.PyRet.single (embLookup W tokens)
    ∧ (DifferentiableEmbedding.forward s W tokens).2.one_hot
        = some { val := oneHotM tokens, requires_grad := s.retain_input_grad, grad := none } := by
  constructor
  · show DifferentiableEmbedding.PyRet.single (forwardTensor W tokens) = _
    rw [forwardTensor_eq_embLookup]
  · rfl

/-- C6 counterexample: on the concrete token matrix `tokensSmall` with
weights `wSmall`, the value returned by
`DifferentiableEmbedding.forward` is the single embedding tensor, not a
2-tuple of embedding and intermediate as the claim states. -/
theorem forward_single_not_pair_counterexample :
    (DifferentiableEmbedding.forward (DifferentiableEmbedding.init 1 2 3) wSmall tokensSmall).1
      = DifferentiableEmbedding.PyRet.single (forwardTensor wSmall tokensSmall)
    ∧ DifferentiableEmbedding.PyRet.isTuple
        (DifferentiableEmbedding.forward (DifferentiableEmbedding.init 1 2 3) wSmall tokensSmall).1
      = false :=
  ⟨rfl, rfl⟩

/-- C7: `input_grad()` returns `None` (and raises nothing, being guarded
by the source's `is not None` test) on a freshly constructed module,
before any forward pass; and it still returns `None` after a forward pass
on a module whose `retain_input_grad_` was never set to `True`, since the
freshly built one-hot tensor carries no gradient. -/
theorem input_grad_none_before_forward_and_without_retain
    (b t V d : ℕ) (W : Fin V → Fin d → ℚ) (tokens : Fin b → Fin t → Fin V) :
    DifferentiableEmbedding.input_grad (DifferentiableEmbedding.init b t V) = none
    ∧ DifferentiableEmbedding.input_grad
        ((DifferentiableEmbedding.forward (DifferentiableEmbedding.init b t V) W tokens).2)
      = none :=
  ⟨rfl, rfl⟩

/-- C8: under `share_all_embeddings`, any configuration with distinct
source/target dictionaries, mismatched encoder/decoder embedding
dimensions, or a truthy decoder embedding path different from the encoder
path, makes `build_model` fail with one of the three descriptive
`ValueError` messages of lines 78-88, without constructing a model. -/
theorem build_model_share_all_embeddings_errors (cfg : Cfg) (task : Task)
    (hshare : cfg.share_all_embeddings = true)
    (hbad : task.source_dictionary ≠ task.target_dictionary
      ∨ cfg.encoder.embed_dim ≠ cfg.decoder.embed_dim
      ∨ (truthyStr cfg.decoder.embed_path = true
          ∧ cfg.decoder.embed_path ≠ cfg.encoder.embed_path)) :
    build_model cfg task
        = Except.error "--share-all-embeddings requires a joined dictionary"
    ∨ build_model cfg task
        = Except.error
            "--share-all-embeddings requires --encoder-embed-dim to match --decoder-embed-dim"
    ∨ build_model cfg task
        = Except.error "--share-all-embeddings not compatible with --decoder-embed-path" := by
  by_cases hd : task.source_dictionary = task.target_dictionary
  · by_cases hdim : cfg.encoder.embed_dim = cfg.decoder.embed_dim
    · rcases hbad with h | h | h
      · exact absurd hd h
      · exact absurd hdim h
      · right; right
        simp [build_model, buildEmbeddings, normalizeCfg, hshare, hd, hdim, h.1, h.2]
    · right; left
      simp [build_model, buildEmbeddings, normalizeCfg, hshare, hd, hdim]
  · left
    simp [build_model, buildEmbeddings, normalizeCfg, hshare, hd]

/-- Witness for C8 at the concrete configuration `cfgShareBad` (shared
embeddings requested, embedding dimensions 512 vs 256) over a joined
dictionary. -/
theorem build_model_share_all_embeddings_errors_witness :
    cfgShareBad.share_all_embeddings = true
    ∧ cfgShareBad.encoder.embed_dim ≠ cfgShareBad.decoder.embed_dim
    ∧ (build_model cfgShareBad taskJoined
          = Except.error "--share-all-embeddings requires a joined dictionary"
      ∨ build_model cfgShareBad taskJoined
          = Except.error
              "--share-all-embeddings requires --encoder-embed-dim to match --decoder-embed-dim"
      ∨ build_model cfgShareBad taskJoined
          = Except.error "--share-all-embeddings not compatible with --decoder-embed-path") :=
  ⟨rfl, by decide,
   build_model_share_all_embeddings_errors cfgShareBad taskJoined rfl
     (Or.inr (Or.inl (by decide)))⟩

/-- C10: the `Embedding` factory zeroes the weight row at `padding_idx`
after the normal initialization, for every size, dimension, valid padding
index and sampled initialization, so pad tokens embed to the zero vector
at construction time. -/
theorem Embedding_zeroes_padding_row (num_embeddings embedding_dim padding_idx : ℕ)
    (init : Fin num_embeddings → Fin embedding_dim → ℚ)
    (h : padding_idx < num_embeddings) (j : Fin embedding_dim) :
    Embedding num_embeddings embedding_dim padding_idx init ⟨padding_idx, h⟩ j = 0 := by
  simp [Embedding]

/-- Witness for C10 at a concrete 4-by-2 table with padding index 1 and
constant nonzero initialization. -/
theorem Embedding_zeroes_padding_row_witness :
    1 < 4
    ∧ Embedding 4 2 1 (fun _ _ => 5) ⟨1, by norm_num⟩ ⟨0, by norm_num⟩ = 0 :=
  ⟨by norm_num,
   Embedding_zeroes_padding_row 4 2 1 (fun _ _ => 5) (by norm_num) ⟨0, by norm_num⟩⟩

end TransformersDD
